import Mathlib

/-!
Verification of the RSVP backend's two service modules and the RSVP
modification route, as a shallow embedding in Lean 4.

The embedding covers:
* `backend/services/geocoding_service.py` — `geocode_address`,
  `_geocode_with_google`, `_geocode_with_nominatim`;
* `backend/services/email_service.py` — the three notification functions;
* `backend/routes/attendees.py` — the body of `modify_rsvp`.

Modelling conventions:
* Python floats are modelled as rationals (`ℚ`); the embedded code only
  compares and forwards coordinates, so no rounding behaviour is relevant.
* Python exceptions are modelled by `Except PyErr`; an uncaught exception
  is a `.error` result.  `try/except` clauses are explicit catch functions.
* The outbound HTTP calls are modelled by oracle values (`HttpResult`):
  either a raised `requests.RequestException`, a 2xx response whose body
  fails to parse as JSON (`response.json()` raises `ValueError`), or a
  parsed JSON body.  Which HTTP calls are issued is recorded separately.
* The regular expressions of `_geocode_with_nominatim` are embedded as
  character-list functions reproducing CPython `re` semantics (greedy
  matching with backtracking) for those three concrete patterns.
  `\s` and `\d` are modelled on their ASCII ranges and `re.IGNORECASE`
  folding on ASCII letters plus `Ç`/`ç`, which covers every character the
  patterns can consume in the module's Brazilian-address input format.
-/

namespace RsvpApp

/-- Python exception classes that the embedded code can raise or catch. -/
inductive PyErr where
  /-- Python `requests.RequestException` (connection errors, timeouts, and the
  `HTTPError` raised by `response.raise_for_status()`). -/
  | requestErr (msg : String)
  /-- Python `ValueError` (also covers `json.JSONDecodeError`, its subclass). -/
  | valueErr (msg : String)
  /-- Python `KeyError`. -/
  | keyErr (msg : String)
  /-- Python `TypeError`. -/
  | typeErr (msg : String)
  /-- Python `AttributeError`. -/
  | attributeErr (msg : String)
  /-- Python `IndexError`. -/
  | indexErr (msg : String)
deriving DecidableEq, Repr

/-- JSON values, as produced by `response.json()`. -/
inductive Json where
  | null
  | bool (b : Bool)
  | num (q : ℚ)
  | str (s : String)
  | arr (elems : List Json)
  | obj (fields : List (String × Json))

/-- Python truthiness of a decoded JSON value. -/
def jsonTruthy : Json → Bool
  | .null => false
  | .bool b => b
  | .num q => q != 0
  | .str s => s != ""
  | .arr l => !l.isEmpty
  | .obj l => !l.isEmpty

/-- Whether `j` is the Python string `s` (`==` comparison against a `str` literal;
comparing a non-`str` value to a `str` is simply `False` in Python). -/
def jsonIsStr (j : Json) (s : String) : Bool :=
  match j with
  | .str t => t == s
  | _ => false

/-- Python `d.get(k)`: `None` (here `Json.null`) when the key is absent; raises
`AttributeError` when the receiver is not a `dict`. -/
def pyDictGet (j : Json) (k : String) : Except PyErr Json :=
  match j with
  | .obj fields => .ok ((fields.lookup k).getD .null)
  | _ => .error (.attributeErr ("object has no attribute get: " ++ k))

/-- Python `d[k]` with a string key: raises `KeyError` on a `dict` missing the key
and `TypeError` on every non-`dict` value. -/
def pySubscript (j : Json) (k : String) : Except PyErr Json :=
  match j with
  | .obj fields =>
    match fields.lookup k with
    | some v => .ok v
    | none => .error (.keyErr k)
  | _ => .error (.typeErr ("value is not subscriptable by string: " ++ k))

/-- Python `x[0]`: head of a list, first character of a string, `KeyError` on a
`dict` (whose keys here are strings, never the integer `0`), `TypeError`
on non-subscriptable values. -/
def pyIndexZero : Json → Except PyErr Json
  | .arr (x :: _) => .ok x
  | .arr [] => .error (.indexErr "list index out of range")
  | .str s =>
    match s.data with
    | c :: _ => .ok (.str (String.mk [c]))
    | [] => .error (.indexErr "string index out of range")
  | .obj _ => .error (.keyErr "0")
  | _ => .error (.typeErr "value is not subscriptable")

/-- Python `len(x)`: defined for `list`, `dict` and `str`; `TypeError` otherwise. -/
def pyLen : Json → Except PyErr Nat
  | .arr l => .ok l.length
  | .obj l => .ok l.length
  | .str s => .ok s.length
  | _ => .error (.typeErr "object has no len")

/-- Numeric value of a list of ASCII digits. -/
def digitsToNat (l : List Char) : Nat :=
  l.foldl (fun a c => a * 10 + (c.toNat - 48)) 0

/-- Model of Python `float(str)` restricted to plain decimal literals
`[+-] digits [. digits]`; other accepted spellings (exponents, `inf`,
surrounding whitespace) are not exercised by this module's data. -/
def pyFloatOfChars (l : List Char) : Option ℚ :=
  let sgn : Bool := match l.head? with | some '-' => true | _ => false
  let l1 : List Char := match l with
    | '-' :: r => r
    | '+' :: r => r
    | r => r
  let ip := l1.takeWhile Char.isDigit
  let rest := l1.dropWhile Char.isDigit
  if ip.isEmpty then none
  else
    match rest with
    | [] => some (if sgn then -(digitsToNat ip : ℚ) else (digitsToNat ip : ℚ))
    | '.' :: fr =>
      if fr.isEmpty ∨ ¬ (fr.all Char.isDigit) then none
      else
        let v : ℚ := (digitsToNat ip : ℚ) + (digitsToNat fr : ℚ) / ((10 : ℚ) ^ fr.length)
        some (if sgn then -v else v)
    | _ => none

/-- Python `float(x)` on a decoded JSON value: numbers are returned,
booleans coerce to `0`/`1`, strings are parsed (`ValueError` on failure),
`None` and containers raise `TypeError`. -/
def pyFloat : Json → Except PyErr ℚ
  | .num q => .ok q
  | .bool b => .ok (if b then 1 else 0)
  | .str s =>
    match pyFloatOfChars s.data with
    | some q => .ok q
    | none => .error (.valueErr "could not convert string to float")
  | .null => .error (.typeErr "float() argument must be a string or a real number, not NoneType")
  | _ => .error (.typeErr "float() argument must be a string or a real number")

/-- Outcome of one outbound HTTP request. -/
inductive HttpResult where
  /-- The call `requests.get` or `response.raise_for_status()` raised a
  `requests.RequestException`. -/
  | exc (msg : String)
  /-- A 2xx response whose body is not JSON: `response.json()` raises
  `ValueError`. -/
  | badBody (msg : String)
  /-- A 2xx response with a decoded JSON body. -/
  | ok (body : Json)

/-- Environment configuration read by the geocoder:
`os.getenv("GOOGLE_GEOCODING_API_KEY")`. -/
structure GeoEnv where
  google_api_key : Option String

/-- The `try`-block of `_geocode_with_google`, given the outcome of the
HTTP request: parse the success envelope, extract the first candidate's
coordinates, and apply the validity check
`lat and lon and -90 <= lat <= 90 and -180 <= lon <= 180`. -/
def googleParse (resp : HttpResult) : Except PyErr (Option ℚ × Option ℚ) := do
  match resp with
  | .exc m => .error (.requestErr m)
  | .badBody m => .error (.valueErr m)
  | .ok data => do
    let status ← pyDictGet data "status"
    let hit ←
      if jsonIsStr status "OK" then do
        let results ← pyDictGet data "results"
        pure (jsonTruthy results)
      else pure false
    if hit then do
      let results ← pySubscript data "results"
      let result ← pyIndexZero results
      let geometry ← pySubscript result "geometry"
      let location ← pySubscript geometry "location"
      let lat ← pyFloat (← pySubscript location "lat")
      let lon ← pyFloat (← pySubscript location "lng")
      if lat ≠ 0 ∧ lon ≠ 0 ∧ -90 ≤ lat ∧ lat ≤ 90 ∧ -180 ≤ lon ∧ lon ≤ 180 then
        pure (some lat, some lon)
      else do
        let _ ← pyDictGet data "status"
        pure (none, none)
    else do
      let _ ← pyDictGet data "status"
      pure (none, none)

/-- The exception handlers shared by both provider functions:
`requests.RequestException`, `ValueError` and `KeyError` are converted to
`(None, None)`; any other exception propagates. -/
def catchGeocode (r : Except PyErr (Option ℚ × Option ℚ)) :
    Except PyErr (Option ℚ × Option ℚ) :=
  match r with
  | .error (.requestErr _) => .ok (none, none)
  | .error (.valueErr _) => .ok (none, none)
  | .error (.keyErr _) => .ok (none, none)
  | r => r

/-- The function `_geocode_with_google`.  The second component records whether the
HTTP request to the Google endpoint was issued. -/
def geocode_with_google (env : GeoEnv) (resp : HttpResult) :
    Except PyErr (Option ℚ × Option ℚ) × Bool :=
  match env.google_api_key with
  | none => (.ok (none, none), false)
  | some key =>
    if key = "" ∨ key = "SUA_CHAVE_AQUI" then (.ok (none, none), false)
    else (catchGeocode (googleParse resp), true)

/-- ASCII range of Python's `\s` class (the input format contains no
non-ASCII whitespace). -/
def pySpace (c : Char) : Bool :=
  c == ' ' || c == '\t' || c == '\n' || c == '\r' || c == '\x0b' || c == '\x0c'

/-- Case folding for `re.IGNORECASE`, on the characters the street-type
alternation can consume: ASCII letters and `Ç`. -/
def pyLower (c : Char) : Char :=
  if 'A' ≤ c ∧ c ≤ 'Z' then Char.ofNat (c.toNat + 32)
  else if c = 'Ç' then 'ç' else c

/-- The street-type alternation
`Rua|Av\.|Avenida|Travessa|Alameda|Praça`, lower-cased.  On any given
string at most one alternative can match (the two sharing the prefix
`av` disagree on their third character), so alternation order is
irrelevant. -/
def streetTokens : List (List Char) :=
  [['r','u','a'], ['a','v','.'], ['a','v','e','n','i','d','a'],
   ['t','r','a','v','e','s','s','a'], ['a','l','a','m','e','d','a'],
   ['p','r','a','ç','a']]

/-- Does the case-folded input start with the given token? -/
def matchTokenAt (s : List Char) (t : List Char) : Bool :=
  (s.take t.length).map pyLower == t

/-- Remainder of the input after the street-type token, when one matches. -/
def dropStreetToken (s : List Char) : Option (List Char) :=
  match streetTokens.find? (matchTokenAt s) with
  | some t => some (s.drop t.length)
  | none => none

/-- Greedy match of `\s+([^,]+)` at the start of `r`, with CPython
backtracking: `\s+` first takes the whole whitespace run; if the next
character is a comma or the end of input, it gives back one whitespace
character for `[^,]+` to consume. -/
def groupAfterToken (r : List Char) : Option (List Char) :=
  let k := (r.takeWhile pySpace).length
  if k = 0 then none
  else
    match (r.drop k).head? with
    | some c =>
      if c ≠ ',' then some ((r.drop k).takeWhile (fun d => d != ','))
      else if 2 ≤ k then some ((r.take k).drop (k - 1)) else none
    | none => if 2 ≤ k then some ((r.take k).drop (k - 1)) else none

/-- Group 1 of
`re.match(r'^(?:Rua|Av\.|Avenida|Travessa|Alameda|Praça)\s+([^,]+)', s, re.IGNORECASE)`. -/
def streetGroup (s : List Char) : Option (List Char) :=
  match dropStreetToken s with
  | some r => groupAfterToken r
  | none => none

/-- Python `str.strip()` (whitespace from both ends). -/
def pyStrip (l : List Char) : List Char :=
  ((l.dropWhile pySpace).reverse.dropWhile pySpace).reverse

/-- The `street_name` local of `_geocode_with_nominatim`: group 1 of the
street regex when it matches, otherwise `address_full.split(',')[0]`,
stripped either way. -/
def street_name (s : String) : String :=
  match streetGroup s.data with
  | some g => String.mk (pyStrip g)
  | none => String.mk (pyStrip (s.data.takeWhile (fun d => d != ',')))

/-- Group 1 of `re.search(r',\s*(\d+)', s)`: scanning left to right, the
first comma followed (after optional whitespace) by a digit; the group is
the maximal digit run.  (`\s` and `\d` are disjoint, so greedy `\s*`
needs no backtracking here.) -/
def findNumberGroup : List Char → Option (List Char)
  | [] => none
  | c :: rest =>
    if c = ',' then
      let after := rest.dropWhile pySpace
      match after.head? with
      | some d =>
        if d.isDigit then some (after.takeWhile Char.isDigit) else findNumberGroup rest
      | none => findNumberGroup rest
    else findNumberGroup rest

/-- The `number` local: group 1 of the number regex, when it matches. -/
def number_of (s : String) : Option String :=
  (findNumberGroup s.data).map String.mk

/-- Match of `\s*-\s*([A-Z]{2})` as a prefix of `u`, returning group 2's
two characters.  (`\s`, `-` and `[A-Z]` are pairwise disjoint, so greedy
`\s*` needs no backtracking.) -/
def stateTail (u : List Char) : Option (Char × Char) :=
  match u.dropWhile pySpace with
  | '-' :: u2 =>
    match u2.dropWhile pySpace with
    | a :: b :: _ =>
      if ('A' ≤ a ∧ a ≤ 'Z') ∧ ('A' ≤ b ∧ b ≤ 'Z') then some (a, b) else none
    | _ => none
  | _ => none

/-- CPython's choice of groups for `\s*([^,]+)\s*-\s*([A-Z]{2})` within
one comma-free segment `t`.  Greedy backtracking settles on the largest
end position `e ≥ 1` at which `\s*-\s*([A-Z]{2})` matches; group 1 then
starts after the leading whitespace run, except that when `e` falls
inside that run the leading `\s*` gives characters back so that group 1
keeps its mandatory single character. -/
def citySegmentGroups (t : List Char) : Option (List Char × Char × Char) :=
  let es := (List.range (t.length + 1)).filter
    (fun e => decide (1 ≤ e) && (stateTail (t.drop e)).isSome)
  match es.getLast? with
  | none => none
  | some e =>
    match stateTail (t.drop e) with
    | some (a, b) =>
      let w := min ((t.takeWhile pySpace).length) (e - 1)
      some ((t.drop w).take (e - w), a, b)
    | none => none

/-- Groups of `re.search(r',\s*([^,]+)\s*-\s*([A-Z]{2})', s)`: the match
must start at a comma, and every other pattern character is a non-comma,
so the whole match after the comma lies inside the following comma-free
segment; the first comma whose segment admits a match wins. -/
def findCityStateGroups : List Char → Option (List Char × Char × Char)
  | [] => none
  | c :: rest =>
    if c = ',' then
      match citySegmentGroups (rest.takeWhile (fun d => d != ',')) with
      | some g => some g
      | none => findCityStateGroups rest
    else findCityStateGroups rest

/-- The `city`/`state` locals: groups 1 and 2 of the city regex, each
`.strip()`ped, when the regex matches. -/
def city_state_of (s : String) : Option (String × String) :=
  match findCityStateGroups s.data with
  | some (g1, a, b) => some (String.mk (pyStrip g1), String.mk (pyStrip [a, b]))
  | none => none

/-- The simplified Nominatim query of `_geocode_with_nominatim`:
`None` exactly when the guard `if not (street_name and city)` fires
(street empty, or no city match, or stripped city empty).  The digit
group is nonempty whenever present, so matching on `number_of` coincides
with the source's `if number:` truthiness test; likewise `state` is two
letters whenever the city matched, so `if state:` is its emptiness test. -/
def simplified_address (s : String) : Option String :=
  let street := street_name s
  match city_state_of s with
  | none => none
  | some (city, state) =>
    if street = "" ∨ city = "" then none
    else
      some (match number_of s with
        | some n =>
          if state ≠ "" then
            street ++ ", " ++ n ++ ", " ++ city ++ ", " ++ state ++ ", Brasil"
          else street ++ ", " ++ n ++ ", " ++ city ++ ", Brasil"
        | none =>
          if state ≠ "" then street ++ ", " ++ city ++ ", " ++ state ++ ", Brasil"
          else street ++ ", " ++ city ++ ", Brasil")

/-- The post-HTTP part of `_geocode_with_nominatim`'s `try`-block:
`if data and len(data) > 0:`, take `data[0]`, convert
`result.get("lat")`/`result.get("lon")` with `float`, and apply the same
validity check as the Google path. -/
def nominatimParse (resp : HttpResult) : Except PyErr (Option ℚ × Option ℚ) := do
  match resp with
  | .exc m => .error (.requestErr m)
  | .badBody m => .error (.valueErr m)
  | .ok data =>
    if jsonTruthy data then do
      let n ← pyLen data
      if 0 < n then do
        let result ← pyIndexZero data
        let lat ← pyFloat (← pyDictGet result "lat")
        let lon ← pyFloat (← pyDictGet result "lon")
        if lat ≠ 0 ∧ lon ≠ 0 ∧ -90 ≤ lat ∧ lat ≤ 90 ∧ -180 ≤ lon ∧ lon ≤ 180 then
          pure (some lat, some lon)
        else pure (none, none)
      else pure (none, none)
    else pure (none, none)

/-- The function `_geocode_with_nominatim`.  The address simplification cannot raise;
when it fails the function returns inside the `try`-block without issuing
the HTTP request.  The second component records whether the HTTP request
to the Nominatim endpoint was issued. -/
def geocode_with_nominatim (s : String) (resp : HttpResult) :
    Except PyErr (Option ℚ × Option ℚ) × Bool :=
  match simplified_address s with
  | none => (.ok (none, none), false)
  | some _query => (catchGeocode (nominatimParse resp), true)

/-- Which calls `geocode_address` performed. -/
structure Trace where
  /-- The HTTP request to the Google endpoint was issued. -/
  googleHttp : Bool
  /-- Control reached `_geocode_with_nominatim`. -/
  nominatimTried : Bool
  /-- The HTTP request to the Nominatim endpoint was issued. -/
  nominatimHttp : Bool
deriving DecidableEq, Repr

/-- Python truthiness of the `lat`/`lon` locals of `geocode_address`
(each `None` or a float). -/
def optTruthyRat : Option ℚ → Bool
  | none => false
  | some q => q != 0

/-- The function `geocode_address`, parameterised by the environment and by the
outcomes the two HTTP endpoints would return if called.  `none` as the
address models a Python `None` argument; `geocode_address` itself has no
exception handler, so an exception escaping `_geocode_with_google`
propagates and `_geocode_with_nominatim` is not reached. -/
def geocode_address (env : GeoEnv) (gResp nResp : HttpResult)
    (address_full : Option String) :
    Except PyErr (Option ℚ × Option ℚ) × Trace :=
  match address_full with
  | none => (.ok (none, none), ⟨false, false, false⟩)
  | some s =>
    if s = "" then (.ok (none, none), ⟨false, false, false⟩)
    else
      let g := geocode_with_google env gResp
      match g.1 with
      | .error e => (.error e, ⟨g.2, false, false⟩)
      | .ok (lat, lon) =>
        if optTruthyRat lat && optTruthyRat lon then (.ok (lat, lon), ⟨g.2, false, false⟩)
        else
          let nm := geocode_with_nominatim s nResp
          (nm.1, ⟨g.2, true, nm.2⟩)

/-! ### `backend/services/email_service.py` -/

/-- The host rows consumed by the notifier (only the email is read). -/
structure Host where
  email : String
deriving DecidableEq, Repr

/-- The event rows consumed by the notifier and the routes. -/
structure Event where
  title : String
  host : Host
  allow_modifications : Bool
  allow_cancellations : Bool
deriving DecidableEq, Repr

/-- The attendee rows consumed by the notifier and the routes. -/
structure Attendee where
  name : String
  whatsapp_number : String
  num_adults : Int
  num_children : Int
  comments : String
  status : String
deriving DecidableEq, Repr

/-- A `sendgrid.helpers.mail.Mail` value as constructed by the module. -/
structure Mail where
  from_email : String
  to_emails : String
  subject : String
  html_content : String
deriving DecidableEq, Repr

/-- The `html_content` f-string of `send_rsvp_notification`, transcribed
byte for byte (Python renders the `int` counts with `str`, which agrees
with `toString` on `Int`). -/
def rsvp_html (event : Event) (attendee : Attendee) : String :=
  "\n            <h2>Nova Confirmação de Presença!</h2>\n            <p><strong>"
  ++ attendee.name
  ++ "</strong> confirmou presença no seu evento: <strong>"
  ++ event.title
  ++ "</strong></p>\n            \n            <h3>Detalhes:</h3>\n            <ul>\n                <li>Adultos: "
  ++ toString attendee.num_adults
  ++ "</li>\n                <li>Crianças: "
  ++ toString attendee.num_children
  ++ "</li>\n                <li>WhatsApp: "
  ++ attendee.whatsapp_number
  ++ "</li>\n                "
  ++ (if attendee.comments ≠ "" then "<li>Comentários: " ++ attendee.comments ++ "</li>" else "")
  ++ "\n            </ul>\n            \n            <p>Veja todos os convidados no seu painel.</p>\n        "

/-- The `Mail` built by `send_rsvp_notification`. -/
def rsvp_mail (event : Event) (attendee : Attendee) : Mail :=
  { from_email := "ferfrancodias@gmail.com"
    to_emails := event.host.email
    subject := "Novo RSVP para " ++ event.title
    html_content := rsvp_html event attendee }

/-- The `html_content` f-string of `send_modification_notification`. -/
def modification_html (event : Event) (attendee : Attendee) : String :=
  "\n            <h2>RSVP Modificado</h2>\n            <p><strong>"
  ++ attendee.name
  ++ "</strong> modificou a confirmação para: <strong>"
  ++ event.title
  ++ "</strong></p>\n            \n            <h3>Detalhes Atualizados:</h3>\n            <ul>\n                <li>Adultos: "
  ++ toString attendee.num_adults
  ++ "</li>\n                <li>Crianças: "
  ++ toString attendee.num_children
  ++ "</li>\n                <li>Comentários: "
  ++ attendee.comments
  ++ "</li>\n            </ul>\n        "

/-- The `Mail` built by `send_modification_notification`. -/
def modification_mail (event : Event) (attendee : Attendee) : Mail :=
  { from_email := "ferfrancodias@gmail.com"
    to_emails := event.host.email
    subject := "RSVP Modificado - " ++ event.title
    html_content := modification_html event attendee }

/-- The `html_content` f-string of `send_cancellation_notification`. -/
def cancellation_html (event : Event) (attendee : Attendee) (reason : String) : String :=
  "\n            <h2>RSVP Cancelado</h2>\n            <p><strong>"
  ++ attendee.name
  ++ "</strong> cancelou a presença em: <strong>"
  ++ event.title
  ++ "</strong></p>\n            \n            "
  ++ (if reason ≠ "" then "<p><strong>Motivo:</strong> " ++ reason ++ "</p>" else "")
  ++ "\n        "

/-- The `Mail` built by `send_cancellation_notification`. -/
def cancellation_mail (event : Event) (attendee : Attendee) (reason : String) : Mail :=
  { from_email := "ferfrancodias@gmail.com"
    to_emails := event.host.email
    subject := "RSVP Cancelado - " ++ event.title
    html_content := cancellation_html event attendee reason }

/-- The function `send_rsvp_notification`, parameterised by the provider's send call
(`sg.send(message)`): a status code on acceptance, or a raised exception.
`Mail` construction and `SendGridAPIClient(...)` cannot raise here, so
the whole `try`-body reduces to the send call, and the bare
`except Exception` arm catches every exception class we model. -/
def send_rsvp_notification (send : Mail → Except PyErr Nat)
    (event : Event) (attendee : Attendee) : Except PyErr Bool :=
  let message := rsvp_mail event attendee
  match send message with
  | .ok _status => .ok true
  | .error _e => .ok false

/-- The function `send_modification_notification`; the `changes` argument is accepted
but never read by the source. -/
def send_modification_notification (send : Mail → Except PyErr Nat)
    (event : Event) (attendee : Attendee) (_changes : List (String × String)) :
    Except PyErr Bool :=
  let message := modification_mail event attendee
  match send message with
  | .ok _status => .ok true
  | .error _e => .ok false

/-- The function `send_cancellation_notification` (with its `reason=""` default passed
explicitly). -/
def send_cancellation_notification (send : Mail → Except PyErr Nat)
    (event : Event) (attendee : Attendee) (reason : String) : Except PyErr Bool :=
  let message := cancellation_mail event attendee reason
  match send message with
  | .ok _status => .ok true
  | .error _e => .ok false

/-! ### `backend/routes/attendees.py`, `modify_rsvp` -/

/-- The JSON request body of `PUT /api/attendees/modify`: `some` models a
key present in the dict (optional keys are read with `"k" in data`,
`event_slug` and `whatsapp_number` with `data.get`, which also yields
`none` here when absent). -/
structure ModifyRequest where
  event_slug : Option String
  whatsapp_number : Option String
  name : Option String
  num_adults : Option Int
  num_children : Option Int
  comments : Option String
deriving DecidableEq, Repr

/-- Python truthiness of `data.get(k)` for a string-valued key. -/
def optTruthyStr : Option String → Bool
  | none => false
  | some s => s != ""

/-- The body of `modify_rsvp`, with the two ORM lookups (event by slug,
attendee by event and WhatsApp number) passed in as oracle values.
Returns the HTTP status code and, on success, the committed attendee row. -/
def modify_rsvp (data : ModifyRequest) (eventFound : Option Event)
    (attendeeFound : Option Attendee) : Nat × Option Attendee :=
  if !(optTruthyStr data.event_slug) || !(optTruthyStr data.whatsapp_number) then
    (400, none)
  else
    match eventFound with
    | none => (404, none)
    | some event =>
      if !event.allow_modifications then (403, none)
      else
        match attendeeFound with
        | none => (404, none)
        | some attendee =>
          let a1 := match data.name with
            | some v => { attendee with name := v }
            | none => attendee
          let a2 := match data.num_adults with
            | some v => { a1 with num_adults := v }
            | none => a1
          let a3 := match data.num_children with
            | some v => { a2 with num_children := v }
            | none => a2
          let a4 := match data.comments with
            | some v => { a3 with comments := v }
            | none => a3
          let a5 := if a4.status = "cancelled" then { a4 with status := "confirmed" } else a4
          (200, some a5)

/-! ### Auxiliary values and lemmas shared by the verification theorems -/

/-- A Google Geocoding success envelope whose first candidate reports the
coordinate `(lat, lon)`; `rest` are any further candidates. -/
def googleSuccess (lat lon : ℚ) (rest : List Json) : HttpResult :=
  .ok (.obj [("status", .str "OK"),
    ("results", .arr (.obj [("geometry", .obj [("location",
      .obj [("lat", .num lat), ("lng", .num lon)])])] :: rest))])

/-- A Nominatim response whose single result reports `(lat, lon)`. -/
def nominatimSuccess (lat lon : ℚ) : HttpResult :=
  .ok (.arr [.obj [("lat", .num lat), ("lon", .num lon)]])

/-- The well-formed Brazilian address used as a running example by the
specification. -/
def sampleAddress : String :=
  "Rua das Flores, 123, Centro, Rio de Janeiro - RJ, CEP 20000-000, Brasil"

/-- Evaluating `googleParse` on a success envelope reduces to the validity check on
the first candidate's coordinate. -/
theorem googleParse_googleSuccess (lat lon : ℚ) (rest : List Json) :
    googleParse (googleSuccess lat lon rest) =
      if lat ≠ 0 ∧ lon ≠ 0 ∧ -90 ≤ lat ∧ lat ≤ 90 ∧ -180 ≤ lon ∧ lon ≤ 180 then
        .ok (some lat, some lon)
      else .ok (none, none) := by
  show (if lat ≠ 0 ∧ lon ≠ 0 ∧ -90 ≤ lat ∧ lat ≤ 90 ∧ -180 ≤ lon ∧ lon ≤ 180 then
        (pure (some lat, some lon) : Except PyErr (Option ℚ × Option ℚ))
      else do
        let _ ← pyDictGet (.obj [("status", .str "OK"),
          ("results", .arr (.obj [("geometry", .obj [("location",
            .obj [("lat", .num lat), ("lng", .num lon)])])] :: rest))]) "status"
        pure (none, none)) = _
  split
  · rfl
  · rfl

/-- Evaluating `nominatimParse` on a single-result response reduces to the validity
check on that result's coordinate. -/
theorem nominatimParse_nominatimSuccess (lat lon : ℚ) :
    nominatimParse (nominatimSuccess lat lon) =
      if lat ≠ 0 ∧ lon ≠ 0 ∧ -90 ≤ lat ∧ lat ≤ 90 ∧ -180 ≤ lon ∧ lon ≤ 180 then
        .ok (some lat, some lon)
      else .ok (none, none) := by
  show (if lat ≠ 0 ∧ lon ≠ 0 ∧ -90 ≤ lat ∧ lat ≤ 90 ∧ -180 ≤ lon ∧ lon ≤ 180 then
        (pure (some lat, some lon) : Except PyErr (Option ℚ × Option ℚ))
      else pure (none, none)) = _
  split
  · rfl
  · rfl

/-- Proposition that `pat` occurs as a contiguous substring of `s`. -/
def strContains (pat s : String) : Prop := ∃ a b : String, s = a ++ pat ++ b

theorem strContains_self (pat : String) : strContains pat pat :=
  ⟨"", "", by rw [String.empty_append, String.append_empty]⟩

theorem strContains_appendL {pat s : String} (t : String) (h : strContains pat s) :
    strContains pat (s ++ t) := by
  obtain ⟨a, b, rfl⟩ := h
  exact ⟨a, b ++ t, by rw [String.append_assoc (a ++ pat) b t]⟩

theorem strContains_appendR {pat t : String} (s : String) (h : strContains pat t) :
    strContains pat (s ++ t) := by
  obtain ⟨a, b, rfl⟩ := h
  exact ⟨s ++ a, b, by simp [String.append_assoc]⟩

/-- Template following the spec's words for the empty-comments case of
`notifyCreated`: attendee name, event title, adult/child counts and
WhatsApp number, with no comments list item at all. -/
def rsvp_html_no_comments (event : Event) (attendee : Attendee) : String :=
  "\n            <h2>Nova Confirmação de Presença!</h2>\n            <p><strong>"
  ++ attendee.name
  ++ "</strong> confirmou presença no seu evento: <strong>"
  ++ event.title
  ++ "</strong></p>\n            \n            <h3>Detalhes:</h3>\n            <ul>\n                <li>Adultos: "
  ++ toString attendee.num_adults
  ++ "</li>\n                <li>Crianças: "
  ++ toString attendee.num_children
  ++ "</li>\n                <li>WhatsApp: "
  ++ attendee.whatsapp_number
  ++ "</li>\n                \n            </ul>\n            \n            <p>Veja todos os convidados no seu painel.</p>\n        "

/-- Concrete rows used to instantiate the universally quantified theorems. -/
def eventSample : Event :=
  { title := "Festa Junina", host := { email := "host@x.com" },
    allow_modifications := true, allow_cancellations := true }

def attendeeNoComments : Attendee :=
  { name := "Maria", whatsapp_number := "+5521999999999", num_adults := 2,
    num_children := 1, comments := "", status := "confirmed" }

def attendeeWithComments : Attendee :=
  { name := "Maria", whatsapp_number := "+5521999999999", num_adults := 2,
    num_children := 1, comments := "Sem pimenta", status := "confirmed" }

def attendeeCancelled : Attendee :=
  { name := "Maria", whatsapp_number := "+5521999999999", num_adults := 1,
    num_children := 0, comments := "", status := "cancelled" }

/-- A send oracle that accepts every message. -/
def sendAccepts : Mail → Except PyErr Nat := fun _ => .ok 202

/-- A send oracle that raises on every message. -/
def sendRaises : Mail → Except PyErr Nat := fun _ => .error (.valueErr "HTTP Error 401: Unauthorized")

/-! ### The claims -/

/-- C1, counterexample: the claim as stated fails on a first-candidate
coordinate `(0, 10)`, which is within valid geographic bounds.  With a
configured key and a success envelope reporting `(0, 10)`,
`geocode_address` does not return that pair and does invoke the Nominatim
fallback, because the validity check `lat and lon and ...` treats the
zero latitude as falsy. -/
theorem C1_counterexample_zero_latitude :
    ¬ ((geocode_address ⟨some "key"⟩ (googleSuccess 0 10 []) (.exc "down")
          (some sampleAddress)).1 = .ok (some 0, some 10) ∧
       (geocode_address ⟨some "key"⟩ (googleSuccess 0 10 []) (.exc "down")
          (some sampleAddress)).2.nominatimTried = false) := by
  intro h
  have htrue : (geocode_address ⟨some "key"⟩ (googleSuccess 0 10 []) (.exc "down")
      (some sampleAddress)).2.nominatimTried = true := by rfl
  rw [h.2] at htrue
  exact Bool.false_ne_true htrue

/-- C1 (amended): for every nonempty address, configured (non-placeholder)
API key and Google success envelope whose first candidate is within valid
geographic bounds *and has both components nonzero*, `geocode_address`
returns exactly that pair, and neither the Nominatim function nor its
HTTP endpoint is ever invoked. -/
theorem C1_google_valid_nonzero_returned_directly (env : GeoEnv) (key : String)
    (lat lon : ℚ) (rest : List Json) (nResp : HttpResult) (s : String)
    (hkey : env.google_api_key = some key) (hk1 : key ≠ "") (hk2 : key ≠ "SUA_CHAVE_AQUI")
    (hs : s ≠ "")
    (hlat0 : lat ≠ 0) (hlon0 : lon ≠ 0)
    (hlat1 : -90 ≤ lat) (hlat2 : lat ≤ 90) (hlon1 : -180 ≤ lon) (hlon2 : lon ≤ 180) :
    geocode_address env (googleSuccess lat lon rest) nResp (some s) =
      (.ok (some lat, some lon), ⟨true, false, false⟩) := by
  have hg : geocode_with_google env (googleSuccess lat lon rest) =
      (.ok (some lat, some lon), true) := by
    rw [geocode_with_google, hkey]
    dsimp only
    rw [if_neg (by simp [hk1, hk2])]
    rw [googleParse_googleSuccess,
        if_pos ⟨hlat0, hlon0, hlat1, hlat2, hlon1, hlon2⟩]
    rfl
  rw [geocode_address, if_neg hs, hg]
  simp [optTruthyRat, hlat0, hlon0]

/-- C1, witness. -/
theorem C1_witness :
    geocode_address ⟨some "key1"⟩ (googleSuccess (-22) (-43) []) (.exc "down")
        (some "Avenida Atlântica, 100, Copacabana, Rio de Janeiro - RJ, Brasil") =
      (.ok (some (-22), some (-43)), ⟨true, false, false⟩) :=
  C1_google_valid_nonzero_returned_directly ⟨some "key1"⟩ "key1" (-22) (-43) [] (.exc "down")
    "Avenida Atlântica, 100, Copacabana, Rio de Janeiro - RJ, Brasil"
    rfl (by decide) (by decide) (by decide) (by decide) (by decide)
    (by decide) (by decide) (by decide) (by decide)

/-- C2: the claim that `geocode_address` never propagates an exception is
the documented intent, but the code violates it.  With no Google key and
a Nominatim 200-response `[{}]` (first result lacking the `lat` field),
`result.get("lat")` yields `None` and `float(None)` raises a `TypeError`,
which the `except (requests.RequestException, ValueError, KeyError)`
clause does not catch, so the exception escapes to the caller. -/
theorem C2_nominatim_missing_lat_raises_uncaught :
    geocode_address ⟨none⟩ (.exc "unused") (.ok (.arr [.obj []])) (some sampleAddress) =
      (.error (.typeErr "float() argument must be a string or a real number, not NoneType"),
       ⟨false, true, true⟩) := by
  rfl

/-- C3: on the specification's running example the fallback path's
address simplification produces exactly
`"das Flores, 123, Rio de Janeiro, RJ, Brasil"` — street-type prefix
stripped, neighbourhood and CEP omitted. -/
theorem C3_simplified_query_roundtrip :
    simplified_address sampleAddress =
      some "das Flores, 123, Rio de Janeiro, RJ, Brasil" := by
  decide

/-- C4: a reported coordinate outside the valid latitude/longitude ranges
is rejected even inside a success envelope: the Google path returns
`(None, None)`, which makes `geocode_address` fall through to the
fallback, and the Nominatim path returns `(None, None)` for every
address. -/
theorem C4_out_of_bounds_rejected (env : GeoEnv) (key : String) (lat lon : ℚ)
    (rest : List Json) (nResp : HttpResult) (s : String)
    (hkey : env.google_api_key = some key) (hk1 : key ≠ "") (hk2 : key ≠ "SUA_CHAVE_AQUI")
    (hs : s ≠ "")
    (hout : ¬ (-90 ≤ lat ∧ lat ≤ 90 ∧ -180 ≤ lon ∧ lon ≤ 180)) :
    (geocode_with_google env (googleSuccess lat lon rest)).1 = .ok (none, none) ∧
    (geocode_address env (googleSuccess lat lon rest) nResp (some s)).2.nominatimTried = true ∧
    (geocode_with_nominatim s (nominatimSuccess lat lon)).1 = .ok (none, none) := by
  have hg : geocode_with_google env (googleSuccess lat lon rest) =
      (.ok (none, none), true) := by
    rw [geocode_with_google, hkey]
    dsimp only
    rw [if_neg (by simp [hk1, hk2])]
    rw [googleParse_googleSuccess, if_neg (by tauto)]
    rfl
  refine ⟨by rw [hg], ?_, ?_⟩
  · rw [geocode_address, if_neg hs, hg]
    simp [optTruthyRat]
  · rw [geocode_with_nominatim]
    cases hsa : simplified_address s with
    | none => rfl
    | some q =>
      rw [nominatimParse_nominatimSuccess, if_neg (by tauto)]
      rfl

/-- C4, witness at the specification's example coordinate `(200, 50)`. -/
theorem C4_witness :
    (geocode_with_google ⟨some "key1"⟩ (googleSuccess 200 50 [])).1 = .ok (none, none) ∧
    (geocode_address ⟨some "key1"⟩ (googleSuccess 200 50 []) (nominatimSuccess 200 50)
        (some sampleAddress)).2.nominatimTried = true ∧
    (geocode_with_nominatim sampleAddress (nominatimSuccess 200 50)).1 = .ok (none, none) :=
  C4_out_of_bounds_rejected ⟨some "key1"⟩ "key1" 200 50 [] (nominatimSuccess 200 50)
    sampleAddress rfl (by decide) (by decide) (by decide) (by decide)

/-- C5: when the fallback path is reached (the Google step produced no
truthy coordinate) and the address yields no extractable street name or
city — street empty after the street-type pattern / before-first-comma
fallback, or no `", <city> - <XX>"` match, or a city that strips to
empty — `geocode_address` returns `(None, None)` and the Nominatim HTTP
endpoint is never called. -/
theorem C5_unextractable_address_no_fallback_call (env : GeoEnv)
    (gResp nResp : HttpResult) (s : String)
    (hs : s ≠ "")
    (hg : (geocode_with_google env gResp).1 = .ok (none, none))
    (hx : street_name s = "" ∨ city_state_of s = none ∨
          ∃ st, city_state_of s = some ("", st)) :
    geocode_address env gResp nResp (some s) =
      (.ok (none, none), ⟨(geocode_with_google env gResp).2, true, false⟩) := by
  have hsa : simplified_address s = none := by
    rw [simplified_address]
    rcases hx with h | h | ⟨st, h⟩
    · rcases hc : city_state_of s with _ | ⟨city, state⟩
      · rfl
      · dsimp only
        rw [if_pos (Or.inl h)]
    · rw [h]
    · rw [h]
      dsimp only
      rw [if_pos (Or.inr rfl)]
  have hnm : geocode_with_nominatim s nResp = (.ok (none, none), false) := by
    rw [geocode_with_nominatim, hsa]
  rw [geocode_address, if_neg hs]
  rcases hg2 : geocode_with_google env gResp with ⟨r, b⟩
  rw [hg2] at hg
  dsimp only at hg ⊢
  rw [hg]
  dsimp only
  rw [hnm]
  simp [optTruthyRat]

/-- C5, witness: an address with no comma and no city pattern. -/
theorem C5_witness :
    geocode_address ⟨none⟩ (.exc "g") (.exc "n") (some "xyz") =
      (.ok (none, none), ⟨(geocode_with_google ⟨none⟩ (.exc "g")).2, true, false⟩) :=
  C5_unextractable_address_no_fallback_call ⟨none⟩ (.exc "g") (.exc "n") "xyz"
    (by decide) rfl (Or.inr (Or.inl (by decide)))

/-- C6: with the API key absent from the environment or equal to the
placeholder `"SUA_CHAVE_AQUI"`, the Google HTTP call is skipped entirely
and `geocode_address` proceeds directly to the fallback provider,
returning the fallback's result. -/
theorem C6_missing_or_placeholder_key_skips_google (env : GeoEnv)
    (gResp nResp : HttpResult) (s : String)
    (hs : s ≠ "")
    (hkey : env.google_api_key = none ∨ env.google_api_key = some "SUA_CHAVE_AQUI") :
    geocode_address env gResp nResp (some s) =
      ((geocode_with_nominatim s nResp).1,
       ⟨false, true, (geocode_with_nominatim s nResp).2⟩) := by
  have hg : geocode_with_google env gResp = (.ok (none, none), false) := by
    rcases hkey with h | h
    · rw [geocode_with_google, h]
    · rw [geocode_with_google, h]
      dsimp only
      rw [if_pos (Or.inr rfl)]
  rw [geocode_address, if_neg hs, hg]
  simp [optTruthyRat]

/-- C6, witness. -/
theorem C6_witness :
    geocode_address ⟨some "SUA_CHAVE_AQUI"⟩ (.exc "g") (.exc "n") (some sampleAddress) =
      ((geocode_with_nominatim sampleAddress (.exc "n")).1,
       ⟨false, true, (geocode_with_nominatim sampleAddress (.exc "n")).2⟩) :=
  C6_missing_or_placeholder_key_skips_google ⟨some "SUA_CHAVE_AQUI"⟩ (.exc "g") (.exc "n")
    sampleAddress (by decide) (Or.inr rfl)

/-- C7: for a `None` or empty address, `geocode_address` returns
`(None, None)` immediately and no HTTP call is made to either provider. -/
theorem C7_falsy_address_immediate_return (env : GeoEnv) (gResp nResp : HttpResult) :
    geocode_address env gResp nResp none = (.ok (none, none), ⟨false, false, false⟩) ∧
    geocode_address env gResp nResp (some "") = (.ok (none, none), ⟨false, false, false⟩) :=
  ⟨rfl, rfl⟩

/-- C8: the creation notification's body omits the comments list item
entirely when `attendee.comments` is empty (it then equals the
comments-free template), includes `<li>Comentários: ...</li>` with the
comments verbatim when non-empty, and always contains the attendee name,
event title, adult and child counts, and WhatsApp number. -/
theorem C8_rsvp_body_contents (event : Event) (attendee : Attendee) :
    (attendee.comments = "" → rsvp_html event attendee = rsvp_html_no_comments event attendee) ∧
    (attendee.comments ≠ "" →
      strContains ("<li>Comentários: " ++ attendee.comments ++ "</li>")
        (rsvp_html event attendee)) ∧
    strContains attendee.name (rsvp_html event attendee) ∧
    strContains event.title (rsvp_html event attendee) ∧
    strContains (toString attendee.num_adults) (rsvp_html event attendee) ∧
    strContains (toString attendee.num_children) (rsvp_html event attendee) ∧
    strContains attendee.whatsapp_number (rsvp_html event attendee) := by
  refine ⟨?_, ?_, ?_, ?_, ?_, ?_, ?_⟩
  · intro h
    rw [rsvp_html, rsvp_html_no_comments, if_neg (by simp [h])]
    simp [String.append_assoc, String.append_empty]
  · intro h
    rw [rsvp_html, if_pos h]
    exact strContains_appendL _ (strContains_appendR _ (strContains_self _))
  · rw [rsvp_html]
    exact strContains_appendL _ (strContains_appendL _ (strContains_appendL _
      (strContains_appendL _ (strContains_appendL _ (strContains_appendL _
        (strContains_appendL _ (strContains_appendL _ (strContains_appendL _
          (strContains_appendL _ (strContains_appendL _
            (strContains_appendR _ (strContains_self _))))))))))))
  · rw [rsvp_html]
    exact strContains_appendL _ (strContains_appendL _ (strContains_appendL _
      (strContains_appendL _ (strContains_appendL _ (strContains_appendL _
        (strContains_appendL _ (strContains_appendL _ (strContains_appendL _
          (strContains_appendR _ (strContains_self _))))))))))
  · rw [rsvp_html]
    exact strContains_appendL _ (strContains_appendL _ (strContains_appendL _
      (strContains_appendL _ (strContains_appendL _ (strContains_appendL _
        (strContains_appendL _ (strContains_appendR _ (strContains_self _))))))))
  · rw [rsvp_html]
    exact strContains_appendL _ (strContains_appendL _ (strContains_appendL _
      (strContains_appendL _ (strContains_appendL _
        (strContains_appendR _ (strContains_self _))))))
  · rw [rsvp_html]
    exact strContains_appendL _ (strContains_appendL _ (strContains_appendL _
      (strContains_appendR _ (strContains_self _))))

/-- C8, witness: one attendee with empty comments, one with non-empty. -/
theorem C8_witness :
    (rsvp_html eventSample attendeeNoComments =
      rsvp_html_no_comments eventSample attendeeNoComments) ∧
    strContains ("<li>Comentários: " ++ attendeeWithComments.comments ++ "</li>")
      (rsvp_html eventSample attendeeWithComments) ∧
    strContains attendeeWithComments.name (rsvp_html eventSample attendeeWithComments) :=
  ⟨(C8_rsvp_body_contents eventSample attendeeNoComments).1 rfl,
   (C8_rsvp_body_contents eventSample attendeeWithComments).2.1 (by decide),
   (C8_rsvp_body_contents eventSample attendeeWithComments).2.2.1⟩

/-- C9: each of the three notifier functions returns `False` (it does not
raise) whenever the underlying send call raises any exception, and
returns `True` whenever the send call succeeds. -/
theorem C9_notifiers_never_raise (send : Mail → Except PyErr Nat)
    (event : Event) (attendee : Attendee)
    (changes : List (String × String)) (reason : String) :
    (∀ e, send (rsvp_mail event attendee) = .error e →
      send_rsvp_notification send event attendee = .ok false) ∧
    (∀ st, send (rsvp_mail event attendee) = .ok st →
      send_rsvp_notification send event attendee = .ok true) ∧
    (∀ e, send (modification_mail event attendee) = .error e →
      send_modification_notification send event attendee changes = .ok false) ∧
    (∀ st, send (modification_mail event attendee) = .ok st →
      send_modification_notification send event attendee changes = .ok true) ∧
    (∀ e, send (cancellation_mail event attendee reason) = .error e →
      send_cancellation_notification send event attendee reason = .ok false) ∧
    (∀ st, send (cancellation_mail event attendee reason) = .ok st →
      send_cancellation_notification send event attendee reason = .ok true) := by
  refine ⟨?_, ?_, ?_, ?_, ?_, ?_⟩ <;> intro x h <;>
    simp [send_rsvp_notification, send_modification_notification,
      send_cancellation_notification, h]

/-- C9, witness: a raising oracle yields `False` and an accepting oracle
yields `True`, for all three notifications. -/
theorem C9_witness :
    send_rsvp_notification sendRaises eventSample attendeeWithComments = .ok false ∧
    send_rsvp_notification sendAccepts eventSample attendeeWithComments = .ok true ∧
    send_modification_notification sendRaises eventSample attendeeWithComments [] = .ok false ∧
    send_modification_notification sendAccepts eventSample attendeeWithComments [] = .ok true ∧
    send_cancellation_notification sendRaises eventSample attendeeWithComments "chuva" = .ok false ∧
    send_cancellation_notification sendAccepts eventSample attendeeWithComments "chuva" = .ok true :=
  ⟨(C9_notifiers_never_raise sendRaises eventSample attendeeWithComments [] "chuva").1 _ rfl,
   (C9_notifiers_never_raise sendAccepts eventSample attendeeWithComments [] "chuva").2.1 _ rfl,
   (C9_notifiers_never_raise sendRaises eventSample attendeeWithComments [] "chuva").2.2.1 _ rfl,
   (C9_notifiers_never_raise sendAccepts eventSample attendeeWithComments [] "chuva").2.2.2.1 _ rfl,
   (C9_notifiers_never_raise sendRaises eventSample attendeeWithComments [] "chuva").2.2.2.2.1 _ rfl,
   (C9_notifiers_never_raise sendAccepts eventSample attendeeWithComments [] "chuva").2.2.2.2.2 _ rfl⟩

/-- C10: a successful modify-RSVP request on an attendee whose status is
`"cancelled"` commits an attendee whose status is `"confirmed"` — the
reactivation happens silently as part of applying the modification. -/
theorem C10_modify_reactivates_cancelled (data : ModifyRequest) (event : Event)
    (attendee a' : Attendee)
    (hst : attendee.status = "cancelled")
    (h : (modify_rsvp data (some event) (some attendee)).2 = some a') :
    a'.status = "confirmed" := by
  rcases data with ⟨es, wa, n, na, nc, c⟩
  rw [modify_rsvp] at h
  cases n <;> cases na <;> cases nc <;> cases c <;>
    (repeat' split at h) <;> simp_all <;> (try (cases h; rfl))

/-- C10, witness: modifying a cancelled RSVP commits status `"confirmed"`. -/
theorem C10_witness :
    (modify_rsvp ⟨some "festa-junina", some "+5521999999999", some "Maria", none, none,
        some "voltamos"⟩ (some eventSample) (some attendeeCancelled)).2 =
      some { attendeeCancelled with comments := "voltamos", status := "confirmed" } ∧
    Attendee.status { attendeeCancelled with comments := "voltamos", status := "confirmed" } =
      "confirmed" :=
  ⟨rfl,
   C10_modify_reactivates_cancelled
     ⟨some "festa-junina", some "+5521999999999", some "Maria", none, none, some "voltamos"⟩
     eventSample attendeeCancelled _ rfl rfl⟩

end RsvpApp
